import Mathlib

/-!
Shallow embedding of the conversation-session and dialogue-turn management
subsystem of the voice assistant backend: the escalation policy and context
builder of `src/routes/voice.py`, the turn extractor of
`src/utils/text_utils.py`, the session store of `src/utils/session_utils.py`,
and the IVR handlers of `src/routes/twilio.py`.
-/

namespace FullEdge

/-- Python `needle in hay` on strings: substring containment test. -/
def substrB (needle hay : String) : Bool :=
  decide (needle.data <:+: hay.data)

/-- Python `s.lower()`: character-wise lowercasing (ASCII case folding,
which covers every cased character the embedded code compares against). -/
def lowerS (s : String) : String :=
  ⟨s.data.map Char.toLower⟩

/-! ## Escalation policy (`src/routes/voice.py`, `process_voice_with_auth`) -/

/-- The closed list of explicit ticket-request trigger phrases
(`src/routes/voice.py` lines 84-86). -/
def ticketPhrases : List String :=
  ["open a ticket", "open the ticket", "create a ticket", "raise a ticket", "submit a ticket"]

/-- `any(phrase in transcription_lower for phrase in [...])` on the lowercased
transcription (`src/routes/voice.py` lines 83-86). -/
def isManualTicketRequest (transcription : String) : Bool :=
  ticketPhrases.any (fun phrase => substrB phrase (lowerS transcription))

/-- The pre-generation routing decision of the escalation policy. -/
inductive Route
  | generate
  | ticketExplicit
deriving DecidableEq

/-- The turn routes to explicit ticket creation exactly when a trigger phrase
occurs in the message (`src/routes/voice.py` line 84: the `if`/`else` split). -/
def decideRoute (transcription : String) : Route :=
  if isManualTicketRequest transcription then .ticketExplicit else .generate

/-- `not ai_response or "technical difficulties" in ai_response.lower()`
(`src/routes/voice.py` line 104); the empty string is the only falsy string. -/
def fallbackTriggered (aiResponse : String) : Bool :=
  aiResponse = "" || substrB "technical difficulties" (lowerS aiResponse)

/-- Result of one authenticated voice turn: the reply text plus which
ticket-creation calls were made. -/
structure TurnOutcome where
  aiResponse : String
  manualTicketAttempted : Bool
  autoTicketAttempted : Bool
deriving DecidableEq

/-- The reply-construction logic of `process_voice_with_auth`
(`src/routes/voice.py` lines 83-115).  `generate` is the opaque generator
(`rag_system.get_response` applied to the built context); `manualTicket` and
`autoTicket` are the results of the two possible `create_trello_card` calls
(`none` models ticket-creation failure). -/
def processTurnAuth (generate : String → String) (manualTicket autoTicket : Option String)
    (transcription context : String) : TurnOutcome :=
  if isManualTicketRequest transcription then
    match manualTicket with
    | some url => ⟨"A support ticket has been created: " ++ url, true, false⟩
    | none => ⟨"I'll create a support ticket for you right away.", true, false⟩
  else
    let ai := generate context
    if fallbackTriggered ai then
      match autoTicket with
      | some url => ⟨"I'm having technical issues. A support ticket was created: " ++ url, false, true⟩
      | none => ⟨ai, false, true⟩
    else ⟨ai, false, false⟩

/-! ## Turn extractor (`src/utils/text_utils.py`, `extract_issue_type`) -/

/-- The fixed enumeration of issue categories with their multilingual keyword
lists, transcribed verbatim (duplicates included) from `issue_patterns`
(`src/utils/text_utils.py` lines 133-182). -/
def issuePatterns : List (String × List String) :=
  [("billing",
    ["bill", "billing", "payment", "charge", "invoice", "cost", "price", "money", "pay", "owed", "debt",
     "facture", "paiement", "coût", "prix", "argent",
     "فاتورة", "دفع", "سعر", "مال", "تكلفة"]),
   ("internet",
    ["internet", "wifi", "wi-fi", "connection", "slow", "outage", "speed", "broadband", "network",
     "connexion", "lent", "panne", "vitesse",
     "إنترنت", "واي فاي", "اتصال", "بطيء", "سرعة", "شبكة"]),
   ("mobile",
    ["phone", "mobile", "cell", "call", "text", "sms", "voicemail", "signal", "roaming",
     "téléphone", "mobile", "appel", "texto", "signal",
     "هاتف", "جوال", "مكالمة", "رسالة", "إشارة"]),
   ("technical",
    ["technical", "support", "help", "problem", "issue", "error", "bug", "fix", "repair", "broken",
     "technique", "aide", "problème", "erreur", "réparer",
     "تقني", "مساعدة", "مشكلة", "خطأ", "إصلاح"]),
   ("account",
    ["account", "login", "password", "profile", "settings", "personal", "information", "data",
     "compte", "connexion", "mot de passe", "profil", "paramètres",
     "حساب", "تسجيل دخول", "كلمة مرور", "ملف شخصي", "إعدادات"]),
   ("service",
    ["service", "plan", "package", "subscription", "upgrade", "downgrade", "change", "switch",
     "forfait", "abonnement", "amélioration",
     "خدمة", "باقة", "اشتراك", "ترقية", "تغيير"])]

/-- The inner scoring loop: `for keyword in issue["keywords"]: if keyword in
text_lower: score += 1` (`src/utils/text_utils.py` lines 187-190). -/
def issueScore (keywords : List String) (textLower : String) : Nat :=
  keywords.foldl (fun score kw => if substrB kw textLower then score + 1 else score) 0

/-- The score of every category, in enumeration order. -/
def scoredCategories (input_text : String) : List (String × Nat) :=
  issuePatterns.map (fun p => (p.1, issueScore p.2 (lowerS input_text)))

/-- The `issue_scores` dict: only categories with positive score are inserted,
in enumeration order (`src/utils/text_utils.py` lines 185-192). -/
def issueScoresOf (input_text : String) : List (String × Nat) :=
  (scoredCategories input_text).filter (fun x => 0 < x.2)

/-- One step of Python `max(..., key=...)`: the accumulator is replaced only
when the new element's key is strictly greater, so the first maximum wins. -/
def pyMaxStep (acc y : String × Nat) : String × Nat :=
  if acc.2 < y.2 then y else acc

/-- `max(issue_scores, key=issue_scores.get)` over the insertion-ordered dict
(`src/utils/text_utils.py` line 196). -/
def pyMaxByScore (x : String × Nat) (xs : List (String × Nat)) : String × Nat :=
  xs.foldl pyMaxStep x

/-- `extract_issue_type` (`src/utils/text_utils.py` lines 128-198): empty dict
yields `None`, otherwise the first key of maximal score. -/
def extract_issue_type (input_text : String) : Option String :=
  match issueScoresOf input_text with
  | [] => none
  | x :: xs => some (pyMaxByScore x xs).1

/-- Maximum score occurring in a scored-category list (0 when empty). -/
def maxScore (l : List (String × Nat)) : Nat :=
  l.foldr (fun y m => max y.2 m) 0

/-- The spec's wording of issue-category extraction: score every category,
return the category with the strictly highest score, resolve ties by
enumeration order (first-defined wins), and return none when every category
scores zero. -/
def specExtractIssueType (input_text : String) : Option String :=
  let l := scoredCategories input_text
  let m := maxScore l
  if m = 0 then none
  else (l.find? (fun x => x.2 = m)).map (fun x => x.1)

theorem find?_cons_pos {α : Type} (p : α → Bool) (a : α) (l : List α) (h : p a = true) :
    (a :: l).find? p = some a := by
  simp [List.find?, h]

theorem find?_cons_neg {α : Type} (p : α → Bool) (a : α) (l : List α) (h : p a = false) :
    (a :: l).find? p = l.find? p := by
  simp [List.find?, h]

theorem maxScore_cons (a : String × Nat) (t : List (String × Nat)) :
    maxScore (a :: t) = max a.2 (maxScore t) := rfl

theorem mem_score_le_maxScore {x : String × Nat} {l : List (String × Nat)} (h : x ∈ l) :
    x.2 ≤ maxScore l := by
  induction l with
  | nil => simp at h
  | cons a t ih =>
    rcases List.mem_cons.1 h with rfl | h
    · exact le_max_left _ _
    · exact le_trans (ih h) (le_max_right _ _)

theorem maxScore_eq_zero {l : List (String × Nat)} (h : ∀ x ∈ l, x.2 = 0) :
    maxScore l = 0 := by
  induction l with
  | nil => rfl
  | cons a t ih =>
    rw [maxScore_cons, h a (List.mem_cons_self a t),
      ih (fun x hx => h x (List.mem_cons_of_mem a hx))]
    simp

theorem find?_congr_on {α : Type} {p q : α → Bool} {l : List α} (h : ∀ x ∈ l, p x = q x) :
    l.find? p = l.find? q := by
  induction l with
  | nil => rfl
  | cons a t ih =>
    have ha := h a (List.mem_cons_self a t)
    have ht := ih (fun x hx => h x (List.mem_cons_of_mem a hx))
    cases hq : q a
    · rw [find?_cons_neg p a t (ha.trans hq), find?_cons_neg q a t hq, ht]
    · rw [find?_cons_pos p a t (ha.trans hq), find?_cons_pos q a t hq]

theorem find?_filter_of_imp {α : Type} {p q : α → Bool} {l : List α}
    (h : ∀ x, p x = true → q x = true) :
    (l.filter q).find? p = l.find? p := by
  induction l with
  | nil => rfl
  | cons a t ih =>
    cases hq : q a
    · have hp : p a = false := by
        cases hpa : p a
        · rfl
        · exact absurd (h a hpa) (by simp [hq])
      rw [List.filter_cons_of_neg (by simp [hq]), find?_cons_neg p a t hp, ih]
    · rw [List.filter_cons_of_pos hq]
      cases hp : p a
      · rw [find?_cons_neg p a _ hp, find?_cons_neg p a t hp, ih]
      · rw [find?_cons_pos p a _ hp, find?_cons_pos p a t hp]

theorem pyMaxStep_snd (x y : String × Nat) : (pyMaxStep x y).2 = max x.2 y.2 := by
  rw [pyMaxStep]
  rcases Nat.lt_or_ge x.2 y.2 with h | h
  · rw [if_pos h, Nat.max_eq_right (Nat.le_of_lt h)]
  · rw [if_neg (Nat.not_lt.2 h), Nat.max_eq_left h]

theorem find?_max_eq_foldl (xs : List (String × Nat)) :
    ∀ x : String × Nat,
      (x :: xs).find? (fun y => maxScore (x :: xs) ≤ y.2) = some (xs.foldl pyMaxStep x) := by
  induction xs with
  | nil =>
    intro x
    have hm : maxScore [x] = x.2 := by rw [maxScore_cons]; simp [maxScore]
    rw [List.foldl_nil]
    exact find?_cons_pos (fun y => maxScore [x] ≤ y.2) x [] (by simp [hm])
  | cons y ys ih =>
    intro x
    rw [List.foldl_cons]
    have hM : maxScore (pyMaxStep x y :: ys) = maxScore (x :: y :: ys) := by
      rw [maxScore_cons, maxScore_cons, maxScore_cons, pyMaxStep_snd, Nat.max_assoc]
    have ihx := ih (pyMaxStep x y)
    rw [hM] at ihx
    rw [← ihx]
    by_cases hxy : x.2 < y.2
    · have hx' : pyMaxStep x y = y := if_pos hxy
      have hy_le : y.2 ≤ maxScore (x :: y :: ys) := mem_score_le_maxScore (by simp)
      have hpx : (decide (maxScore (x :: y :: ys) ≤ x.2) : Bool) = false := by
        simp only [decide_eq_false_iff_not, Nat.not_le]
        exact lt_of_lt_of_le hxy hy_le
      rw [hx', find?_cons_neg (fun z => maxScore (x :: y :: ys) ≤ z.2) x (y :: ys) hpx]
    · have hx' : pyMaxStep x y = x := if_neg hxy
      rw [hx']
      cases hpx : (decide (maxScore (x :: y :: ys) ≤ x.2) : Bool)
      · have hpy : (decide (maxScore (x :: y :: ys) ≤ y.2) : Bool) = false := by
          simp only [decide_eq_false_iff_not, Nat.not_le] at hpx ⊢
          exact lt_of_le_of_lt (Nat.le_of_not_lt hxy) hpx
        rw [find?_cons_neg (fun z => maxScore (x :: y :: ys) ≤ z.2) x (y :: ys) hpx,
          find?_cons_neg (fun z => maxScore (x :: y :: ys) ≤ z.2) y ys hpy,
          find?_cons_neg (fun z => maxScore (x :: y :: ys) ≤ z.2) x ys hpx]
      · rw [find?_cons_pos (fun z => maxScore (x :: y :: ys) ≤ z.2) x (y :: ys) hpx,
          find?_cons_pos (fun z => maxScore (x :: y :: ys) ≤ z.2) x ys hpx]

theorem maxScore_filter_pos {l : List (String × Nat)} (h : 0 < maxScore l) :
    maxScore (l.filter (fun x => 0 < x.2)) = maxScore l := by
  induction l with
  | nil => simp [maxScore] at h
  | cons a t ih =>
    by_cases ha : 0 < a.2
    · rw [List.filter_cons_of_pos (by simpa using ha), maxScore_cons, maxScore_cons]
      by_cases ht : 0 < maxScore t
      · rw [ih ht]
      · have ht0 : maxScore t = 0 := Nat.eq_zero_of_not_pos ht
        have hall : ∀ x ∈ t, x.2 = 0 := fun x hx =>
          Nat.le_zero.1 (ht0 ▸ mem_score_le_maxScore hx)
        have hfe : t.filter (fun x => 0 < x.2) = [] :=
          List.filter_eq_nil_iff.2 (fun x hx => by simp [hall x hx])
        rw [hfe, ht0]
        rfl
    · have ha0 : a.2 = 0 := Nat.eq_zero_of_not_pos ha
      rw [List.filter_cons_of_neg (by simp [ha0])]
      rw [maxScore_cons, ha0, Nat.max_eq_right (Nat.zero_le _)] at h ⊢
      exact ih h

/-- C4: for every input text, `extract_issue_type` returns the category with
the strictly highest keyword-hit score, resolving ties by the fixed
enumeration order (billing, internet, mobile, technical, account, service),
and returns none when every category scores zero — i.e. it coincides with the
spec-worded selection `specExtractIssueType`. -/
theorem extract_issue_type_matches_spec (input_text : String) :
    extract_issue_type input_text = specExtractIssueType input_text := by
  rw [extract_issue_type, specExtractIssueType]
  cases hfl : issueScoresOf input_text with
  | nil =>
    have hall : ∀ x ∈ scoredCategories input_text, x.2 = 0 := by
      intro x hx
      have hnp := List.filter_eq_nil_iff.1 hfl x hx
      simpa using hnp
    rw [maxScore_eq_zero hall]
    rfl
  | cons x xs =>
    have hxf : x ∈ issueScoresOf input_text := hfl ▸ List.mem_cons_self x xs
    have hxpos : 0 < x.2 := by
      have := List.of_mem_filter hxf
      simpa using this
    have hxl : x ∈ scoredCategories input_text := List.mem_of_mem_filter hxf
    have hM : 0 < maxScore (scoredCategories input_text) :=
      lt_of_lt_of_le hxpos (mem_score_le_maxScore hxl)
    rw [if_neg (Nat.pos_iff_ne_zero.1 hM)]
    have h1 : (scoredCategories input_text).find?
          (fun z => z.2 = maxScore (scoredCategories input_text))
        = (scoredCategories input_text).find?
          (fun z => maxScore (scoredCategories input_text) ≤ z.2) := by
      refine find?_congr_on (fun z hz => ?_)
      have hle := mem_score_le_maxScore hz
      by_cases h : z.2 = maxScore (scoredCategories input_text)
      · simp [h]
      · simp only [decide_eq_decide]
        constructor
        · intro he; exact absurd he h
        · intro hge; exact absurd (Nat.le_antisymm hle hge) h
    have h2 : ((scoredCategories input_text).filter (fun z => 0 < z.2)).find?
          (fun z => maxScore (scoredCategories input_text) ≤ z.2)
        = (scoredCategories input_text).find?
          (fun z => maxScore (scoredCategories input_text) ≤ z.2) := by
      refine find?_filter_of_imp (fun z hz => ?_)
      simp only [decide_eq_true_eq] at hz ⊢
      exact lt_of_lt_of_le hM hz
    have h5 : issueScoresOf input_text
        = (scoredCategories input_text).filter (fun z => 0 < z.2) := rfl
    have h3 : maxScore (x :: xs) = maxScore (scoredCategories input_text) := by
      have hm := maxScore_filter_pos hM
      rw [← h5, hfl] at hm
      exact hm
    have h4 := find?_max_eq_foldl xs x
    rw [h3] at h4
    rw [h1, ← h2, ← h5, hfl, h4]
    rfl

theorem append_ne_empty_left (s t : String) (h : s ≠ "") : s ++ t ≠ "" := by
  intro he
  apply h
  have hd := congrArg String.data he
  rw [String.data_append] at hd
  exact String.ext (List.append_eq_nil.1 hd).1

/-- C2 counterexample: when the generator returns the empty string, no trigger
phrase is present, and ticket creation returns null, the turn's reply is the
empty string — the ticket fallback was attempted, but no non-empty apology is
returned. -/
theorem empty_generator_null_ticket_empty_reply :
    (processTurnAuth (fun _ => "") none none "good morning" "good morning").autoTicketAttempted
        = true ∧
    (processTurnAuth (fun _ => "") none none "good morning" "good morning").aiResponse = "" := by
  constructor <;> rfl

/-- C2 (amended): a generator reply that is empty or contains the
failure-indicator phrase triggers a ticket-creation attempt; if ticket
creation returns null the generator's reply is returned unchanged — non-empty
exactly when the generator's reply was non-empty — while a successful ticket
creation yields a non-empty apology naming the ticket. -/
theorem generator_fallback_ticket_attempt (g : String → String)
    (manualTicket autoTicket : Option String) (transcription context : String)
    (hman : isManualTicketRequest transcription = false)
    (hfail : fallbackTriggered (g context) = true) :
    (processTurnAuth g manualTicket autoTicket transcription context).autoTicketAttempted
        = true ∧
    (processTurnAuth g manualTicket autoTicket transcription context).aiResponse =
      (match autoTicket with
       | some url => "I'm having technical issues. A support ticket was created: " ++ url
       | none => g context) ∧
    ∀ url, autoTicket = some url →
      (processTurnAuth g manualTicket autoTicket transcription context).aiResponse ≠ "" := by
  have hout : processTurnAuth g manualTicket autoTicket transcription context =
      (match autoTicket with
       | some url => ⟨"I'm having technical issues. A support ticket was created: " ++ url,
           false, true⟩
       | none => ⟨g context, false, true⟩) := by
    rw [processTurnAuth.eq_def]
    simp only [hman, Bool.false_eq_true, if_false, hfail, if_true]
  rw [hout]
  cases autoTicket with
  | none => exact ⟨rfl, rfl, fun url hu => by cases hu⟩
  | some url =>
    refine ⟨rfl, rfl, fun u hu => ?_⟩
    cases hu
    show ("I'm having technical issues. A support ticket was created: " ++ url) ≠ ""
    exact append_ne_empty_left "I'm having technical issues. A support ticket was created: " url
      (by decide)

theorem generator_fallback_ticket_attempt_witness :
    (processTurnAuth (fun _ => "") none none "hello there" "hello there").autoTicketAttempted
        = true ∧
    (processTurnAuth (fun _ => "") none none "hello there" "hello there").aiResponse = "" := by
  have h := generator_fallback_ticket_attempt (fun _ => "") none none "hello there" "hello there"
    (by decide) (by decide)
  exact ⟨h.1, h.2.1⟩

/-- C3: a message containing any of the closed list of explicit ticket-request
phrases (case-insensitive substring match) routes to explicit ticket creation
before generation: the outcome is independent of the generator, the manual
ticket is attempted, and the auto-fallback ticket path is never taken. -/
theorem explicit_ticket_bypasses_generator (g1 g2 : String → String)
    (manualTicket autoTicket : Option String) (transcription context : String)
    (h : ∃ p ∈ ticketPhrases, substrB p (lowerS transcription) = true) :
    decideRoute transcription = Route.ticketExplicit ∧
    processTurnAuth g1 manualTicket autoTicket transcription context =
      processTurnAuth g2 manualTicket autoTicket transcription context ∧
    (processTurnAuth g1 manualTicket autoTicket transcription context).manualTicketAttempted
        = true ∧
    (processTurnAuth g1 manualTicket autoTicket transcription context).autoTicketAttempted
        = false := by
  have hb : isManualTicketRequest transcription = true := by
    rw [isManualTicketRequest, List.any_eq_true]
    rcases h with ⟨p, hp, hs⟩
    exact ⟨p, hp, hs⟩
  have hout : ∀ g : String → String,
      processTurnAuth g manualTicket autoTicket transcription context =
        (match manualTicket with
         | some url => ⟨"A support ticket has been created: " ++ url, true, false⟩
         | none => ⟨"I'll create a support ticket for you right away.", true, false⟩) := by
    intro g
    rw [processTurnAuth.eq_def]
    simp only [hb, if_true]
  refine ⟨by simp [decideRoute, hb], by rw [hout g1, hout g2], ?_, ?_⟩ <;>
    · rw [hout g1]
      cases manualTicket <;> rfl

theorem explicit_ticket_bypasses_generator_witness :
    decideRoute "Could you OPEN A TICKET for my internet" = Route.ticketExplicit ∧
    (processTurnAuth (fun _ => "generated") none none
      "Could you OPEN A TICKET for my internet" "ctx").manualTicketAttempted = true := by
  have h := explicit_ticket_bypasses_generator (fun _ => "generated") (fun _ => "other")
    none none "Could you OPEN A TICKET for my internet" "ctx"
    ⟨"open a ticket", by decide, by decide⟩
  exact ⟨h.1, h.2.2.1⟩

/-! ## Context builder (`src/routes/voice.py`, `process_voice` lines 234-274)

A durable turn as selected by the history query (`user_message`,
`ai_response`, `timestamp`).  The `conversations` rows of one session are
modelled as a list in timestamp-ascending order, which is their insertion
(chronological) order — timestamps are assigned monotonically at persistence
time — so `ORDER BY timestamp ASC` is the identity on it. -/

structure DurableTurn where
  user_message : String
  ai_response : String
  timestamp : Nat
deriving DecidableEq

/-- The history query `SELECT user_message, ai_response FROM conversations
WHERE session_id = ... ORDER BY timestamp ASC LIMIT 10`
(`src/routes/voice.py` lines 239-245): on the ascending row list, `LIMIT 10`
keeps the first (oldest) 10 rows. -/
def loadPersistedHistory (sessionRows : List DurableTurn) : List DurableTurn :=
  sessionRows.take 10

/-- Python `l[-10:]`. -/
def lastN (n : Nat) (l : List α) : List α :=
  l.drop (l.length - n)

/-- `history_to_use = request.history if non-empty else database history`
(`src/routes/voice.py` lines 257-262). -/
def historyToUse (clientHistory persisted : List DurableTurn) : List DurableTurn :=
  if clientHistory.length > 0 then clientHistory else persisted

/-- The turns folded into the built context: the loop `for turn in
history_to_use[-10:]` (`src/routes/voice.py` line 268) over the chosen
history, where the persisted side is what the `LIMIT 10` ascending query
returned. -/
def contextWindow (clientHistory sessionRows : List DurableTurn) : List DurableTurn :=
  lastN 10 (historyToUse clientHistory (loadPersistedHistory sessionRows))

/-- The built context string (`src/routes/voice.py` lines 264-274). -/
def buildConversationContext (history : List DurableTurn) (currentMessage : String) : String :=
  if history.length > 0 then
    (lastN 10 history).foldl
      (fun ctx turn =>
        ctx ++ "User: " ++ turn.user_message ++ "\nAI: " ++ turn.ai_response ++ "\n")
      "Previous conversation:\n"
    ++ "\nCurrent user message: " ++ currentMessage ++ "\n"
  else currentMessage

/-- A 12-turn persisted history with ascending timestamps 0..11. -/
def rows12 : List DurableTurn :=
  (List.range 12).map (fun i => ⟨"u" ++ toString i, "a" ++ toString i, i⟩)

/-- C1 counterexample: with an empty client history and 12 persisted turns,
the built context holds the EARLIEST 10 turns (`rows12.take 10`), not the 10
most recent (`lastN 10 rows12`): the query orders ascending and limits to 10,
so the two most recent turns never reach the context. -/
theorem context_window_12_rows_first_ten :
    contextWindow [] rows12 = rows12.take 10 ∧
    contextWindow [] rows12 ≠ lastN 10 rows12 := by
  constructor
  · rfl
  · decide

/-- C1 (amended): for a turn whose client-supplied history is empty, the
context builder falls back to the persisted history limited to the 10
EARLIEST durable turns in timestamp-ascending order; for a 12-turn history,
exactly the first 10 turns appear in the built context, in ascending
chronological order. -/
theorem context_fallback_earliest_ten (clientHistory sessionRows : List DurableTurn)
    (hclient : clientHistory = [])
    (hasc : sessionRows.Pairwise (fun a b => a.timestamp ≤ b.timestamp)) :
    contextWindow clientHistory sessionRows = sessionRows.take 10 ∧
    (contextWindow clientHistory sessionRows).Pairwise
      (fun a b => a.timestamp ≤ b.timestamp) := by
  subst hclient
  have hw : contextWindow [] sessionRows = sessionRows.take 10 := by
    rw [contextWindow, historyToUse]
    simp only [List.length_nil, gt_iff_lt, Nat.lt_irrefl, if_false]
    rw [loadPersistedHistory, lastN]
    have hlen : (sessionRows.take 10).length ≤ 10 := by
      rw [List.length_take]
      exact min_le_left _ _
    rw [Nat.sub_eq_zero_of_le hlen, List.drop_zero]
  refine ⟨hw, ?_⟩
  rw [hw]
  exact hasc.sublist (List.take_sublist 10 sessionRows)

theorem context_fallback_earliest_ten_witness :
    contextWindow [] rows12 = rows12.take 10 ∧
    (contextWindow [] rows12).Pairwise (fun a b => a.timestamp ≤ b.timestamp) :=
  context_fallback_earliest_ten [] rows12 rfl (by decide)

/-! ## Dialogue session store (`src/utils/session_utils.py`, `src/routes/twilio.py`) -/

/-- Resolved caller identity (`CallerInfo` of the data model). -/
structure CallerInfo where
  is_registered : Bool
  full_name : Option String
  user_id : Option Nat
deriving DecidableEq

/-- Modelled from the spec: `models.py` (class `CallSession`) is not under
`src/`; per spec §3 and §4.1 a new session carries the default
language/persona — the first enumerated language (`en-US`) and the fallback
persona (id 2, Amira) — with no caller identity yet. -/
structure CallSession where
  call_sid : String
  caller_phone : String
  language : String
  assistant_id : Nat
  caller_info : Option CallerInfo
deriving DecidableEq

/-- Modelled from the spec: the `CallSession(call_sid, caller_phone)`
constructor with default language/persona. -/
def CallSession.new (call_sid caller_phone : String) : CallSession :=
  ⟨call_sid, caller_phone, "en-US", 2, none⟩

/-- The live in-memory `call_sessions` table, keyed by CallSid. -/
def SessionStore : Type := String → Option CallSession

/-- A table with no live sessions. -/
def emptyStore : SessionStore := fun _ => none

/-- `call_sessions[k] = s`. -/
def storeInsert (store : SessionStore) (k : String) (s : CallSession) : SessionStore :=
  fun k2 => if k2 = k then some s else store k2

/-- `del call_sessions[k]`. -/
def storeErase (store : SessionStore) (k : String) : SessionStore :=
  fun k2 => if k2 = k then none else store k2

/-- `get_or_create_call_session` (`src/utils/session_utils.py` lines 13-17):
create the session only when the key is absent, then return the stored one. -/
def get_or_create_call_session (store : SessionStore) (call_sid caller_phone : String) :
    SessionStore × CallSession :=
  match store call_sid with
  | some s => (store, s)
  | none =>
    let s := CallSession.new call_sid caller_phone
    (storeInsert store call_sid s, s)

theorem goc_of_some (store : SessionStore) (sid phone : String) (s : CallSession)
    (h : store sid = some s) :
    get_or_create_call_session store sid phone = (store, s) := by
  rw [get_or_create_call_session, h]

theorem goc_of_none (store : SessionStore) (sid phone : String) (h : store sid = none) :
    get_or_create_call_session store sid phone
      = (storeInsert store sid (CallSession.new sid phone), CallSession.new sid phone) := by
  rw [get_or_create_call_session, h]

/-- C7: `get_or_create_call_session` is idempotent — a second call with the
same key returns the very same session and leaves the table unchanged — and
the first call for an unseen key constructs a new (default) session. -/
theorem get_or_create_idempotent (store : SessionStore) (sid phone phone2 : String) :
    (get_or_create_call_session
        (get_or_create_call_session store sid phone).1 sid phone2).2
      = (get_or_create_call_session store sid phone).2 ∧
    (get_or_create_call_session
        (get_or_create_call_session store sid phone).1 sid phone2).1
      = (get_or_create_call_session store sid phone).1 ∧
    (store sid = none →
      (get_or_create_call_session store sid phone).2 = CallSession.new sid phone) := by
  cases h : store sid with
  | some s =>
    have h1 := goc_of_some store sid phone s h
    have h2 : get_or_create_call_session (store, s).1 sid phone2 = ((store, s).1, s) :=
      goc_of_some (store, s).1 sid phone2 s h
    rw [h1, h2]
    exact ⟨rfl, rfl, fun hn => absurd hn (Option.some_ne_none s)⟩
  | none =>
    have h1 := goc_of_none store sid phone h
    have hkey : (storeInsert store sid (CallSession.new sid phone),
        CallSession.new sid phone).1 sid = some (CallSession.new sid phone) := by
      show (if sid = sid then some (CallSession.new sid phone) else store sid)
          = some (CallSession.new sid phone)
      rw [if_pos rfl]
    have h2 := goc_of_some (storeInsert store sid (CallSession.new sid phone),
      CallSession.new sid phone).1 sid phone2 (CallSession.new sid phone) hkey
    rw [h1, h2]
    exact ⟨rfl, rfl, fun _ => rfl⟩

theorem get_or_create_idempotent_witness :
    (get_or_create_call_session
        (get_or_create_call_session emptyStore "CA1" "p1").1 "CA1" "p2").2
      = (get_or_create_call_session emptyStore "CA1" "p1").2 ∧
    (get_or_create_call_session emptyStore "CA1" "p1").2 = CallSession.new "CA1" "p1" :=
  ⟨(get_or_create_idempotent emptyStore "CA1" "p1" "p2").1,
   (get_or_create_idempotent emptyStore "CA1" "p1" "p2").2.2 rfl⟩

/-! ## Status callback (`src/routes/twilio.py`, `handle_status_callback`) -/

/-- The call-completion statuses that evict the session
(`src/routes/twilio.py` line 316). -/
def terminalStatuses : List String :=
  ["completed", "failed", "busy", "no-answer", "canceled"]

/-- `handle_status_callback` session cleanup (`src/routes/twilio.py` lines
306-321): on a terminal status, delete the CallSid's session if present. -/
def handle_status_callback (store : SessionStore) (callSid callStatus : String) :
    SessionStore :=
  if terminalStatuses.contains callStatus then
    if (store callSid).isSome then storeErase store callSid else store
  else store

/-- C6: every terminal call status evicts the CallSid's session from the live
table, whatever state it was in, and a subsequent `get_or_create` for the same
CallSid constructs a brand-new session with default state. -/
theorem status_callback_evicts (store : SessionStore) (sid phone status : String)
    (h : terminalStatuses.contains status = true) :
    (handle_status_callback store sid status) sid = none ∧
    (get_or_create_call_session (handle_status_callback store sid status) sid phone).2
      = CallSession.new sid phone ∧
    CallSession.new sid phone = ⟨sid, phone, "en-US", 2, none⟩ := by
  have hgone : (handle_status_callback store sid status) sid = none := by
    rw [handle_status_callback, if_pos h]
    cases ho : store sid with
    | none =>
      rw [if_neg (by simp)]
      exact ho
    | some s =>
      rw [if_pos (show (some s).isSome = true from rfl)]
      show (if sid = sid then none else store sid) = none
      rw [if_pos rfl]
  refine ⟨hgone, ?_, rfl⟩
  rw [goc_of_none (handle_status_callback store sid status) sid phone hgone]

theorem status_callback_evicts_witness :
    (handle_status_callback
        (storeInsert emptyStore "CA9" ⟨"CA9", "+216", "fr-FR", 1, none⟩)
        "CA9" "completed") "CA9" = none ∧
    (get_or_create_call_session
        (handle_status_callback
          (storeInsert emptyStore "CA9" ⟨"CA9", "+216", "fr-FR", 1, none⟩)
          "CA9" "completed") "CA9" "+216").2
      = CallSession.new "CA9" "+216" :=
  ⟨(status_callback_evicts
      (storeInsert emptyStore "CA9" ⟨"CA9", "+216", "fr-FR", 1, none⟩)
      "CA9" "+216" "completed" (by decide)).1,
   (status_callback_evicts
      (storeInsert emptyStore "CA9" ⟨"CA9", "+216", "fr-FR", 1, none⟩)
      "CA9" "+216" "completed" (by decide)).2.1⟩

/-! ## IVR selection handlers (`src/routes/twilio.py`) -/

/-- One language menu entry. -/
structure LangConfig where
  code : String
  name : String
deriving DecidableEq

/-- Modelled from the spec: `config.py` is not under `src/`.  The digit-keyed
language menu follows the prompt in `src/routes/twilio.py` line 71 ("Press 1
for English. Press 2 for Arabic. Press 3 for French.") and the locale codes
used across the code (`en-US`, `ar-SA`, `fr-FR`); voice names are omitted as
no claim depends on them. -/
def LANGUAGE_CONFIG : List (String × LangConfig) :=
  [("1", ⟨"en-US", "English"⟩),
   ("2", ⟨"ar-SA", "Arabic"⟩),
   ("3", ⟨"fr-FR", "French"⟩)]

/-- One assistant menu entry. -/
structure AssistantConfig where
  id : Nat
  name : String
deriving DecidableEq

/-- Modelled from the spec: `config.py` is not under `src/`.  The digit-keyed
assistant menu follows the prompt in `src/routes/twilio.py` line 113 ("Press 1
for Slah ... Press 2 for Amira ...") and the id conventions used across the
code (`assistantId == 1` is Slah, otherwise Amira). -/
def ASSISTANT_CONFIG : List (String × AssistantConfig) :=
  [("1", ⟨1, "Slah"⟩),
   ("2", ⟨2, "Amira"⟩)]

/-- Python `d.get(k, default)` over a digit-keyed config table. -/
def dictGet {α : Type} (l : List (String × α)) (k : String) (dflt : α) : α :=
  match l.find? (fun e => e.1 = k) with
  | some e => e.2
  | none => dflt

/-- `handle_language_selection` (`src/routes/twilio.py` lines 82-121), session
part: resolve-or-create the session, then set its language from
`LANGUAGE_CONFIG.get(Digits, LANGUAGE_CONFIG["1"])`.  `digits = none` models
an absent `Digits` form field, defaulted to `"1"` by `Form(default="1")`. -/
def handle_language_selection (store : SessionStore) (callSid : String)
    (digits : Option String) : SessionStore × CallSession :=
  let d := digits.getD "1"
  let sc :=
    match store callSid with
    | some s => (store, s)
    | none => get_or_create_call_session store callSid "unknown"
  let lang_config := dictGet LANGUAGE_CONFIG d ⟨"en-US", "English"⟩
  let s2 := { sc.2 with language := lang_config.code }
  (storeInsert sc.1 callSid s2, s2)

/-- `handle_assistant_selection` (`src/routes/twilio.py` lines 124-171),
session part: resolve-or-create (setting language `en-US` on the fresh
session), then set the assistant id from
`ASSISTANT_CONFIG.get(Digits, ASSISTANT_CONFIG["2"])`; `Digits` defaults to
`"2"`. -/
def handle_assistant_selection (store : SessionStore) (callSid : String)
    (digits : Option String) : SessionStore × CallSession :=
  let d := digits.getD "2"
  let sc :=
    match store callSid with
    | some s => (store, s)
    | none =>
      let r := get_or_create_call_session store callSid "unknown"
      let s1 := { r.2 with language := "en-US" }
      (storeInsert r.1 callSid s1, s1)
  let assistant_config := dictGet ASSISTANT_CONFIG d ⟨2, "Amira"⟩
  let s2 := { sc.2 with assistant_id := assistant_config.id }
  (storeInsert sc.1 callSid s2, s2)

/-- The shared session-resolution step of `start_conversation`
(`src/routes/twilio.py` lines 183-187) and `process_speech` (lines 223-227):
a missing session is silently recreated with language `en-US` and
assistant 2. -/
def resolveSessionWithDefaults (store : SessionStore) (callSid : String) :
    SessionStore × CallSession :=
  match store callSid with
  | some s => (store, s)
  | none =>
    let r := get_or_create_call_session store callSid "unknown"
    let s1 := { r.2 with language := "en-US", assistant_id := 2 }
    (storeInsert r.1 callSid s1, s1)

/-- C8: the timeout/invalid-digit defaults are deterministic and never an
error: an unanswered or invalid-digit language prompt sets the session
language to the first enumerated language (`en-US`, digit "1"), and an
unanswered or invalid-digit persona prompt sets the assistant to the second
enumerated persona (id 2, Amira, digit "2").  Each default depends only on
its own menu: a digit that is absent from one menu's table falls to that
menu's default whether or not the other menu knows it. -/
theorem ivr_timeout_defaults (store : SessionStore) (sid : String) (digits : Option String) :
    ((∀ d, digits = some d → LANGUAGE_CONFIG.find? (fun e => e.1 = d) = none) →
      (handle_language_selection store sid digits).2.language = "en-US") ∧
    ((∀ d, digits = some d → ASSISTANT_CONFIG.find? (fun e => e.1 = d) = none) →
      (handle_assistant_selection store sid digits).2.assistant_id = 2) := by
  constructor
  · intro hlang
    rw [handle_language_selection]
    cases digits with
    | none => cases store sid <;> rfl
    | some d =>
      have hd := hlang d rfl
      show (dictGet LANGUAGE_CONFIG ((some d).getD "1") ⟨"en-US", "English"⟩).code = "en-US"
      rw [Option.getD_some, dictGet.eq_def, hd]
  · intro hass
    rw [handle_assistant_selection]
    cases digits with
    | none => cases store sid <;> rfl
    | some d =>
      have hd := hass d rfl
      show (dictGet ASSISTANT_CONFIG ((some d).getD "2") ⟨2, "Amira"⟩).id = 2
      rw [Option.getD_some, dictGet.eq_def, hd]

theorem ivr_timeout_defaults_witness :
    ((handle_language_selection emptyStore "CA2" none).2.language = "en-US" ∧
      (handle_assistant_selection emptyStore "CA2" none).2.assistant_id = 2) ∧
    ((handle_language_selection emptyStore "CA2" (some "9")).2.language = "en-US" ∧
      (handle_assistant_selection emptyStore "CA2" (some "9")).2.assistant_id = 2) ∧
    (handle_assistant_selection emptyStore "CA2" (some "3")).2.assistant_id = 2 :=
  ⟨⟨(ivr_timeout_defaults emptyStore "CA2" none).1 (fun d hd => by cases hd),
    (ivr_timeout_defaults emptyStore "CA2" none).2 (fun d hd => by cases hd)⟩,
   ⟨(ivr_timeout_defaults emptyStore "CA2" (some "9")).1 (fun d hd => by cases hd; decide),
    (ivr_timeout_defaults emptyStore "CA2" (some "9")).2 (fun d hd => by cases hd; decide)⟩,
   (ivr_timeout_defaults emptyStore "CA2" (some "3")).2 (fun d hd => by cases hd; decide)⟩

/-- C9: every mid-call handler invoked with a CallSid that has no live session
silently creates a fresh session with default state instead of failing: the
language/assistant selection handlers recreate and store a session for the
key, and the speech handlers recreate one with language `en-US` and
assistant 2; no handler returns an error for a missing session. -/
theorem missing_session_recreated (store : SessionStore) (sid : String)
    (digits : Option String) (h : store sid = none) :
    (handle_language_selection store sid digits).2.call_sid = sid ∧
    (handle_language_selection store sid digits).1 sid
      = some (handle_language_selection store sid digits).2 ∧
    (handle_assistant_selection store sid digits).2.call_sid = sid ∧
    (handle_assistant_selection store sid digits).2.language = "en-US" ∧
    (handle_assistant_selection store sid digits).1 sid
      = some (handle_assistant_selection store sid digits).2 ∧
    (resolveSessionWithDefaults store sid).2
      = { CallSession.new sid "unknown" with language := "en-US", assistant_id := 2 } ∧
    (resolveSessionWithDefaults store sid).1 sid = some (resolveSessionWithDefaults store sid).2 := by
  have hl : ∀ st : SessionStore, ∀ k : String, ∀ v : CallSession, storeInsert st k v k = some v := by
    intro st k v
    show (if k = k then some v else st k) = some v
    rw [if_pos rfl]
  refine ⟨?_, ?_, ?_, ?_, ?_, ?_, ?_⟩
  · rw [handle_language_selection, h]
    rw [goc_of_none store sid "unknown" h]
    rfl
  · rw [handle_language_selection, h, goc_of_none store sid "unknown" h]
    exact hl _ sid _
  · rw [handle_assistant_selection, h, goc_of_none store sid "unknown" h]
    rfl
  · rw [handle_assistant_selection, h, goc_of_none store sid "unknown" h]
  · rw [handle_assistant_selection, h, goc_of_none store sid "unknown" h]
    exact hl _ sid _
  · rw [resolveSessionWithDefaults, h, goc_of_none store sid "unknown" h]
  · rw [resolveSessionWithDefaults, h, goc_of_none store sid "unknown" h]
    exact hl _ sid _

theorem missing_session_recreated_witness :
    (resolveSessionWithDefaults emptyStore "CA3").2
      = { CallSession.new "CA3" "unknown" with language := "en-US", assistant_id := 2 } ∧
    (handle_language_selection emptyStore "CA3" (some "2")).2.call_sid = "CA3" :=
  ⟨(missing_session_recreated emptyStore "CA3" (some "2") rfl).2.2.2.2.2.1,
   (missing_session_recreated emptyStore "CA3" (some "2") rfl).1⟩

/-! ## IVR speech-gather loop (`src/routes/twilio.py`)

The pending speech `Gather` of the call, named by the TwiML document that
rendered it.  An empty/timeout input makes the gather fall through to the
verbs after it (Twilio only posts to the action when speech was collected):

* `initialGather` — the gather of the assistant-selection document (lines
  158-169); fallthrough says "I didn't hear anything. Please try again." and
  redirects to start-conversation.
* `retryGather` — the gather of the start-conversation document (lines
  197-208); fallthrough says "I didn't hear anything. Goodbye!" and hangs up.
* `continueGather` — the gather rendered after a successful reply in
  process-speech (lines 289-301); fallthrough says "Thank you for calling
  Ooredoo. Goodbye!" and hangs up.

A non-empty utterance posts to process-speech, which replies and renders
`continueGather`; process-speech called with an empty `SpeechResult` (lines
241-244) re-prompts and redirects to start-conversation. -/

inductive GatherState
  | initialGather
  | retryGather
  | continueGather
  | terminated
deriving DecidableEq

inductive SpeechEvent
  | emptyInput
  | utterance (s : String)

/-- What one IVR step emits and where it lands. -/
structure IVRStepOut where
  next : GatherState
  reprompted : Bool
  hungUp : Bool
deriving DecidableEq

/-- `process_speech` (`src/routes/twilio.py` lines 213-303): empty speech
re-prompts and redirects to start-conversation; non-empty speech is answered
and a continuation gather is rendered. -/
def processSpeechStep (s : String) : IVRStepOut :=
  if s = "" then ⟨.retryGather, true, false⟩
  else ⟨.continueGather, false, false⟩

/-- One transition of the speech-gather loop: the pending gather consumes the
next event for this call. -/
def ivrStep : GatherState → SpeechEvent → IVRStepOut
  | .terminated, _ => ⟨.terminated, false, false⟩
  | .initialGather, .emptyInput => ⟨.retryGather, true, false⟩
  | .retryGather, .emptyInput => ⟨.terminated, false, true⟩
  | .continueGather, .emptyInput => ⟨.terminated, false, true⟩
  | _, .utterance s => processSpeechStep s

/-- C5 counterexample: an empty input at the continuation gather — reached by
a successful utterance from the initial gather, with no preceding empty
input — terminates the call at once, without the re-prompt-and-re-enter step
the claim requires of an empty input in GATHER_SPEECH. -/
theorem continue_gather_empty_terminates_immediately :
    (ivrStep .initialGather (.utterance "hello")).next = GatherState.continueGather ∧
    ivrStep .continueGather .emptyInput = ⟨.terminated, false, true⟩ := by
  constructor <;> rfl

/-- C5 (amended): an empty input at the initial speech gather re-prompts
exactly once and re-enters the gather; an empty input at the re-prompted
gather — and likewise at the continuation gather after a reply — terminates
the call (goodbye and hangup) without re-prompting; hence from every state two
consecutive empty inputs terminate the call and at most one re-prompt is ever
emitted, so the gather-retry loop is bounded. -/
theorem gather_retry_bounded :
    ivrStep .initialGather .emptyInput = ⟨.retryGather, true, false⟩ ∧
    ivrStep .retryGather .emptyInput = ⟨.terminated, false, true⟩ ∧
    ivrStep .continueGather .emptyInput = ⟨.terminated, false, true⟩ ∧
    (∀ st : GatherState,
      (ivrStep (ivrStep st .emptyInput).next .emptyInput).next = .terminated) ∧
    (∀ st : GatherState,
      (ivrStep st .emptyInput).reprompted = true →
        (ivrStep (ivrStep st .emptyInput).next .emptyInput).reprompted = false) := by
  refine ⟨rfl, rfl, rfl, ?_, ?_⟩ <;> intro st <;> cases st <;> simp [ivrStep]

theorem gather_retry_bounded_witness :
    (ivrStep (ivrStep .initialGather .emptyInput).next .emptyInput).next = .terminated ∧
    (ivrStep (ivrStep .initialGather .emptyInput).next .emptyInput).reprompted = false :=
  ⟨gather_retry_bounded.2.2.2.1 GatherState.initialGather,
   gather_retry_bounded.2.2.2.2 GatherState.initialGather rfl⟩

/-! ## History-item access (`src/routes/voice.py` lines 74-77 and 266-274)

`turn.user if hasattr(turn, 'user') else turn.get('user', '')` over items that
are either objects exposing `user`/`ai` attributes (the request model) or
dicts.  `Except String` models a raised Python exception. -/

inductive HistoryItem
  | obj (user ai : String)
  | dict (entries : List (String × String))
deriving DecidableEq

/-- Python `hasattr(turn, field)` for the two shapes: the request-model object
exposes exactly `user` and `ai`; a dict exposes neither as an attribute. -/
def hasattrField : HistoryItem → String → Bool
  | .obj _ _, f => f = "user" || f = "ai"
  | .dict _, _ => false

/-- Python attribute access `turn.<field>` (`none` = AttributeError). -/
def getattrField : HistoryItem → String → Option String
  | .obj u _, "user" => some u
  | .obj _ a, "ai" => some a
  | _, _ => none

/-- Python `turn.get(field, dflt)`: defined for dicts, an AttributeError for
the object shape (objects have no `get` method). -/
def dictGetField : HistoryItem → String → String → Except String String
  | .dict es, f, dflt => .ok ((es.lookup f).getD dflt)
  | .obj _ _, _, _ => .error "AttributeError: object has no attribute get"

/-- `turn.user if hasattr(turn, 'user') else turn.get('user', '')`. -/
def turnFieldValue (t : HistoryItem) (f : String) : Except String String :=
  if hasattrField t f then
    match getattrField t f with
    | some v => .ok v
    | none => .error "AttributeError"
  else dictGetField t f ""

/-- One loop iteration: read the two fields of the item, propagating any
raised exception (`src/routes/voice.py` lines 269-271). -/
def contextStepE (ctx : String) (t : HistoryItem) : Except String String :=
  match turnFieldValue t "user" with
  | .error e => .error e
  | .ok u =>
    match turnFieldValue t "ai" with
    | .error e => .error e
    | .ok a => .ok (ctx ++ "User: " ++ u ++ "\nAI: " ++ a ++ "\n")

/-- The `for turn in history_to_use[-10:]` loop with exception propagation. -/
def foldContextE : List HistoryItem → String → Except String String
  | [], ctx => .ok ctx
  | t :: ts, ctx =>
    match contextStepE ctx t with
    | .error e => .error e
    | .ok c2 => foldContextE ts c2

/-- The context built from duck-typed history items
(`src/routes/voice.py` lines 264-274), in the exception monad. -/
def buildContextFromItems (items : List HistoryItem) (currentMessage : String) :
    Except String String :=
  if items.length > 0 then
    match foldContextE (lastN 10 items) "Previous conversation:\n" with
    | .error e => .error e
    | .ok body => .ok (body ++ "\nCurrent user message: " ++ currentMessage ++ "\n")
  else .ok currentMessage

theorem turnFieldValue_user_ok (t : HistoryItem) : ∃ v, turnFieldValue t "user" = .ok v := by
  cases t with
  | obj u a => exact ⟨u, rfl⟩
  | dict es => exact ⟨(es.lookup "user").getD "", rfl⟩

theorem turnFieldValue_ai_ok (t : HistoryItem) : ∃ v, turnFieldValue t "ai" = .ok v := by
  cases t with
  | obj u a => exact ⟨a, rfl⟩
  | dict es => exact ⟨(es.lookup "ai").getD "", rfl⟩

theorem contextStepE_ok (ctx : String) (t : HistoryItem) :
    ∃ c2, contextStepE ctx t = .ok c2 := by
  obtain ⟨u, hu⟩ := turnFieldValue_user_ok t
  obtain ⟨a, ha⟩ := turnFieldValue_ai_ok t
  refine ⟨ctx ++ "User: " ++ u ++ "\nAI: " ++ a ++ "\n", ?_⟩
  rw [contextStepE, hu, ha]

theorem foldContextE_ok (items : List HistoryItem) :
    ∀ ctx : String, ∃ s, foldContextE items ctx = .ok s := by
  induction items with
  | nil => exact fun ctx => ⟨ctx, rfl⟩
  | cons t ts ih =>
    intro ctx
    obtain ⟨c2, hc2⟩ := contextStepE_ok ctx t
    obtain ⟨s, hs⟩ := ih c2
    refine ⟨s, ?_⟩
    rw [foldContextE, hc2]
    exact hs

/-- C10: building the context is total over both history-item shapes — it
never raises for any list of objects/dicts — a dict lacking the `user` key
contributes the empty string for that field, and an object's `user`/`ai`
attributes are read directly. -/
theorem history_item_access_total (items : List HistoryItem) (msg : String)
    (es : List (String × String)) (h : es.lookup "user" = none) :
    (∃ s, buildContextFromItems items msg = .ok s) ∧
    turnFieldValue (.dict es) "user" = .ok "" ∧
    (∀ u a, turnFieldValue (.obj u a) "user" = .ok u ∧
      turnFieldValue (.obj u a) "ai" = .ok a) := by
  refine ⟨?_, ?_, fun u a => ⟨rfl, rfl⟩⟩
  · rw [buildContextFromItems]
    by_cases hlen : items.length > 0
    · rw [if_pos hlen]
      obtain ⟨s, hs⟩ := foldContextE_ok (lastN 10 items) "Previous conversation:\n"
      rw [hs]
      exact ⟨s ++ "\nCurrent user message: " ++ msg ++ "\n", rfl⟩
    · rw [if_neg hlen]
      exact ⟨msg, rfl⟩
  · show dictGetField (.dict es) "user" "" = .ok ""
    rw [dictGetField, h]
    rfl

theorem history_item_access_total_witness :
    (∃ s, buildContextFromItems
        [.obj "hi" "hello", .dict [("ai", "fine")], .dict []] "how are you" = .ok s) ∧
    turnFieldValue (.dict [("ai", "fine")]) "user" = .ok "" :=
  ⟨(history_item_access_total [.obj "hi" "hello", .dict [("ai", "fine")], .dict []]
      "how are you" [("ai", "fine")] (by decide)).1,
   (history_item_access_total [.obj "hi" "hello", .dict [("ai", "fine")], .dict []]
      "how are you" [("ai", "fine")] (by decide)).2.1⟩

end FullEdge
